import Mathlib

/-! Verification development for the gridcall scoring engine and its
prediction forms. The data model of predictions follows
src/frontend/lib/api.ts; the form behaviour follows
src/frontend/components/PredictionForm.tsx and the unnamed sources
part_003 and part_004; the scoring engine itself (signal extractor,
surprise ranker, prediction grader, award calculator) is not part of the
repository sources and is modelled from the specification. -/

namespace Gridcall

/-- Subject kind from src/frontend/lib/api.ts: the fields breakout_type and
bust_type range over the two string literals driver and team. -/
inductive SubjectKind : Type
  | driver
  | team
deriving DecidableEq, Repr

/-- Modelled from the spec: the five prediction categories of the scoring
engine (the award calculator is absent from the repository sources). -/
inductive Category : Type
  | pole
  | podium
  | chaser
  | breakout
  | bust
deriving DecidableEq, Repr

/-- Modelled from the spec: the list of all five scoring categories. -/
def Category.all : List Category :=
  [.pole, .podium, .chaser, .breakout, .bust]

/-- Modelled from the spec: the AwardResult record of spec section 3 (the
award calculator is absent from the repository sources). -/
structure AwardResult where
  perCategoryPoints : Category → Nat
  fullSendApplied : Bool
  totalPoints : Nat

/-- Modelled from the spec: the Full Send adjustment of spec section 4.4,
absent from the repository sources. The marked category's points c are
replaced by c * 2 when c > 0 and by 0 when c = 0; every other category is
untouched. -/
def adjustFullSend (p : Category → Nat) : Option Category → Category → Nat
  | none => p
  | some c => fun c2 => if c2 = c then (if 0 < p c then p c * 2 else 0) else p c2

/-- Modelled from the spec: calculateAward of spec section 4.4, absent from
the repository sources. It applies the Full Send adjustment to the
per-category points and sums the adjusted points into totalPoints. -/
def calculateAward (p : Category → Nat) (fullSendCategory : Option Category) :
    AwardResult :=
  { perCategoryPoints := adjustFullSend p fullSendCategory
    fullSendApplied := fullSendCategory.isSome
    totalPoints := (Category.all.map (adjustFullSend p fullSendCategory)).sum }

/-- Example per-category points used to instantiate proved statements. -/
def examplePoints : Category → Nat
  | .pole => 1
  | .podium => 4
  | .chaser => 0
  | .breakout => 2
  | .bust => 0

/-- Prediction record from src/frontend/lib/api.ts (lines 72 to 84): the
podium guesses are three separate driver fields, and chaser_driver and
full_send_category are optional. -/
structure Prediction where
  race_id : Nat
  pole_driver : String
  podium_p1 : String
  podium_p2 : String
  podium_p3 : String
  chaser_driver : Option String
  breakout_type : SubjectKind
  breakout_name : String
  bust_type : SubjectKind
  bust_name : String
  full_send_category : Option String
deriving DecidableEq, Repr

/-- Modelled from the spec: the EventResult record of spec section 3; no
event-result type exists in the repository sources. Mappings are
association lists. -/
structure EventResult where
  poleDriver : String
  podium : List String
  gridToFinish : List (String × Int)
  qualifyingOrder : List String
  raceFinishOrder : List String
  teamOf : List (String × String)
  teamCompetitivenessBaseline : List (String × Rat)
deriving DecidableEq, Repr

/-- Modelled from the spec: one podium slot of the prediction grader (spec
section 4.3, absent from the repository sources): 2 points for the exact
slot, otherwise 1 point when the guessed driver appears anywhere on the
podium, otherwise 0. -/
def podiumSlotScore (podium : List String) (slotIndex : Nat) (guess : String) :
    Nat :=
  if podium[slotIndex]? = some guess then 2
  else if guess ∈ podium then 1
  else 0

/-- Modelled from the spec: the podium category total of the prediction
grader, the sum of the three independent per-slot evaluations. -/
def gradePodium (r : EventResult) (pr : Prediction) : Nat :=
  podiumSlotScore r.podium 0 pr.podium_p1 +
    podiumSlotScore r.podium 1 pr.podium_p2 +
    podiumSlotScore r.podium 2 pr.podium_p3

/-- Modelled from the spec: one comparison step of the chaser argmax (spec
section 4.3): keep the entry with the greater positions-gained value and
break ties in favour of the lower-ordered driver identifier. -/
def pickChaser (x y : String × Int) : String × Int :=
  if x.2 < y.2 then y
  else if y.2 < x.2 then x
  else if x.1 ≤ y.1 then x
  else y

/-- The winning entry beats another entry: strictly more positions gained,
or equally many with an identifier that is not larger. -/
def chaserDominates (w p : String × Int) : Prop :=
  p.2 < w.2 ∨ (p.2 = w.2 ∧ w.1 ≤ p.1)

/-- Modelled from the spec: the driver with the greatest gridToFinish value,
ties resolved in favour of the lower-ordered driver identifier; none for an
empty mapping. -/
def chaserWinner : List (String × Int) → Option String
  | [] => none
  | e :: rest => some (rest.foldl pickChaser e).1

/-- Modelled from the spec: the chaser category of the prediction grader
awards 1 point exactly when the predicted chaser driver is the argmax of
gridToFinish; an unset chaser awards nothing. -/
def gradeChaser (r : EventResult) (pr : Prediction) : Nat :=
  match pr.chaser_driver with
  | none => 0
  | some d => if chaserWinner r.gridToFinish = some d then 1 else 0

/-- Modelled from the spec: the SurpriseScore record of spec section 3; no
such type exists in the repository sources. Components are an association
list from signal name to normalized value. -/
structure SurpriseScore where
  subjectId : String
  subjectKind : SubjectKind
  components : List (String × Rat)
  weightedScore : Rat
deriving DecidableEq, Repr

/-- Modelled from the spec: the positionsGained component of a surprise
score, the value consulted by the documented ranking tie-break. -/
def SurpriseScore.positionsGainedComponent (s : SurpriseScore) : Rat :=
  (s.components.lookup "positionsGained").getD 0

/-- Modelled from the spec: the RankedClassification record of spec
section 3. -/
structure RankedClassification where
  breakouts : List SurpriseScore
  busts : List SurpriseScore
deriving DecidableEq, Repr

/-- Modelled from the spec: the breakout and bust rows of the grading table
of spec section 4.3 (absent from the repository sources): points are
awarded when the pick's identifier appears in the given classification
list with the matching subject kind; a driver pick is worth 1 point and a
team pick 2. -/
def gradePick (entries : List SurpriseScore) (kind : SubjectKind)
    (name : String) : Nat :=
  if entries.any (fun s => s.subjectId == name && s.subjectKind == kind) then
    match kind with
    | .driver => 1
    | .team => 2
  else 0

/-- Modelled from the spec: gradePrediction of spec section 4.3, absent
from the repository sources, producing the per-category points that
calculateAward consumes. -/
def gradePrediction (pr : Prediction) (r : EventResult)
    (cls : RankedClassification) : Category → Nat
  | .pole => if pr.pole_driver = r.poleDriver then 1 else 0
  | .podium => gradePodium r pr
  | .chaser => gradeChaser r pr
  | .breakout => gradePick cls.breakouts pr.breakout_type pr.breakout_name
  | .bust => gradePick cls.busts pr.bust_type pr.bust_name

/-- Example finalized event result used to instantiate proved statements:
NOR and HAM tie on positions gained, so the chaser is the lower-ordered
identifier HAM. -/
def exampleResult : EventResult :=
  { poleDriver := "VER"
    podium := ["VER", "LEC", "NOR"]
    gridToFinish := [("VER", 0), ("LEC", 1), ("NOR", 3), ("HAM", 3), ("ALO", -2)]
    qualifyingOrder := ["VER", "LEC", "NOR", "HAM", "ALO"]
    raceFinishOrder := ["VER", "LEC", "NOR", "HAM", "ALO"]
    teamOf := [("VER", "Red Bull"), ("LEC", "Ferrari"), ("NOR", "McLaren"),
               ("HAM", "Mercedes"), ("ALO", "Aston Martin")]
    teamCompetitivenessBaseline := [("Red Bull", 2), ("Ferrari", 3),
               ("McLaren", 4), ("Mercedes", 5), ("Aston Martin", 8)] }

/-- Example classified breakout subjects. -/
def exampleScoreHad : SurpriseScore :=
  { subjectId := "HAD"
    subjectKind := .driver
    components := [("positionsGained", 1)]
    weightedScore := 7 }

/-- Example classified breakout team subject. -/
def exampleScoreSauber : SurpriseScore :=
  { subjectId := "Sauber"
    subjectKind := .team
    components := [("positionsGained", 0)]
    weightedScore := 5 }

/-- Example classified bust subject. -/
def exampleScoreAlo : SurpriseScore :=
  { subjectId := "ALO"
    subjectKind := .driver
    components := [("positionsGained", 0)]
    weightedScore := 1 }

/-- Example ranked classification used to instantiate proved statements. -/
def exampleClassification : RankedClassification :=
  { breakouts := [exampleScoreHad, exampleScoreSauber]
    busts := [exampleScoreAlo] }

/-- Example prediction: correct pole, the real podium in reverse order, the
tie-breaking chaser HAM, the classified breakout driver HAD and bust driver
ALO. -/
def examplePrediction : Prediction :=
  { race_id := 1
    pole_driver := "VER"
    podium_p1 := "NOR"
    podium_p2 := "LEC"
    podium_p3 := "VER"
    chaser_driver := some "HAM"
    breakout_type := .driver
    breakout_name := "HAD"
    bust_type := .driver
    bust_name := "ALO"
    full_send_category := some "pole" }

/-- Modelled from the spec: the error taxonomy of spec section 7 (the
scoring engine and its errors are absent from the repository sources). -/
inductive ScoringError : Type
  | dataIntegrity
  | emptyInput
deriving DecidableEq, Repr

/-- Modelled from the spec: the entrant set of an event result; spec
section 3 states that qualifyingOrder contains every entrant exactly
once. -/
def EventResult.entrants (r : EventResult) : List String :=
  r.qualifyingOrder

/-- Modelled from the spec: every driver identifier appearing in the event
result. -/
def EventResult.resultDrivers (r : EventResult) : List String :=
  r.podium ++ r.qualifyingOrder ++ r.raceFinishOrder
    ++ r.gridToFinish.map Prod.fst

/-- Modelled from the spec: the integrity condition of spec section 4.1:
every driver appearing in the result has a team in teamOf, and the podium,
qualifying and finish lists mention only entrants. -/
def EventResult.dataOk (r : EventResult) : Bool :=
  r.resultDrivers.all (fun d => (r.teamOf.lookup d).isSome) &&
    (r.podium ++ r.qualifyingOrder ++ r.raceFinishOrder).all
      (fun d => r.entrants.contains d)

/-- Clamp a rational signal value into the unit interval. -/
def clamp01 (q : Rat) : Rat := max 0 (min 1 q)

/-- Rescale a delta-type signal from the plus-minus-one range into the unit
interval, clamping at both ends. -/
def rescaleDelta (x : Rat) : Rat := clamp01 ((x + 1) / 2)

/-- Modelled from the spec: 1-indexed position of a driver in an ordered
sequence (consulted only after the integrity check). -/
def posIn (l : List String) (d : String) : Nat := l.indexOf d + 1

/-- Modelled from the spec: qualifying strength, monotonically higher for a
better position, with a fixed step bonus for making the top-ten cutoff. -/
def qualifyingStrength (n q : Nat) : Rat :=
  clamp01 (((n - q : Int) : Rat) / ((n - 1 : Int) : Rat))
    + (if q ≤ 10 then (1 : Rat) / 2 else 0)

/-- Modelled from the spec: signed normalized teammate delta, positive when
the driver's position a is ahead of the team-mate's position b. -/
def teammateDelta (n a b : Nat) : Rat :=
  rescaleDelta (((b - a : Int) : Rat) / ((n - 1 : Int) : Rat))

/-- Modelled from the spec: normalized positions gained, clipped to a fixed
plus-minus-five range to bound outlier influence. -/
def positionsGainedSignal (g : Int) : Rat :=
  rescaleDelta (((max (-5) (min 5 g) : Int) : Rat) / 5)

/-- Modelled from the spec: normalized difference between the team's
expected finish and the actual finish; beating a weak car's expectation
raises the signal. -/
def competitivenessAdjustedFinish (n : Nat) (expected : Rat) (f : Nat) :
    Rat :=
  rescaleDelta ((expected - (f : Rat)) / (n : Rat))

/-- Modelled from the spec: the five signal names of spec section 4.1. -/
def signalNames : List String :=
  ["qualifyingStrength", "teammateQualiDelta", "teammateRaceDelta",
   "positionsGained", "competitivenessAdjustedFinish"]

/-- Modelled from the spec: fixed per-signal weights, the qualifying cutoff
and teammate battles weighted highest, raw positions gained moderately, and
the competitiveness-adjusted finish rewarding beating a weak car. -/
def signalWeights : List (String × Rat) :=
  [("qualifyingStrength", 3), ("teammateQualiDelta", 3),
   ("teammateRaceDelta", 3), ("positionsGained", 2),
   ("competitivenessAdjustedFinish", 2)]

/-- Modelled from the spec: the weighted surprise score, the weighted sum
of the components. -/
def weightedSum (components : List (String × Rat)) : Rat :=
  (components.map (fun c => ((signalWeights.lookup c.1).getD 0) * c.2)).sum

/-- Modelled from the spec: the team mate of a driver, the other entrant
mapped to the same team. -/
def teammateOf (r : EventResult) (d : String) : Option String :=
  (r.entrants.filter
    (fun d2 => d2 != d && (r.teamOf.lookup d2 == r.teamOf.lookup d))).head?

/-- Modelled from the spec: the per-driver signal components of spec
section 4.1. -/
def driverComponents (r : EventResult) (d : String) : List (String × Rat) :=
  let n := r.entrants.length
  let q := posIn r.qualifyingOrder d
  let f := posIn r.raceFinishOrder d
  let tq := match teammateOf r d with
    | some t => posIn r.qualifyingOrder t
    | none => q
  let tf := match teammateOf r d with
    | some t => posIn r.raceFinishOrder t
    | none => f
  let g := (r.gridToFinish.lookup d).getD 0
  let expected :=
    ((r.teamOf.lookup d).bind
      (fun t => r.teamCompetitivenessBaseline.lookup t)).getD (f : Rat)
  [("qualifyingStrength", qualifyingStrength n q),
   ("teammateQualiDelta", teammateDelta n q tq),
   ("teammateRaceDelta", teammateDelta n f tf),
   ("positionsGained", positionsGainedSignal g),
   ("competitivenessAdjustedFinish",
     competitivenessAdjustedFinish n expected f)]

/-- Modelled from the spec: the surprise score of one driver. -/
def driverSurprise (r : EventResult) (d : String) : SurpriseScore :=
  { subjectId := d
    subjectKind := .driver
    components := driverComponents r d
    weightedScore := weightedSum (driverComponents r d) }

/-- Modelled from the spec: the teams of an event in first-appearance
order. -/
def eventTeams (r : EventResult) : List String :=
  (r.teamOf.map Prod.snd).dedup

/-- Modelled from the spec: the drivers of one team. -/
def teamDrivers (r : EventResult) (t : String) : List String :=
  r.entrants.filter (fun d => r.teamOf.lookup d == some t)

/-- Modelled from the spec: per-team components, the mean of the team's
drivers' components, making teams commensurable with drivers on the same
weighted-score scale. -/
def teamComponents (r : EventResult) (t : String) : List (String × Rat) :=
  let ds := teamDrivers r t
  signalNames.map (fun nm =>
    (nm, if ds.length = 0 then 0
      else (ds.map (fun d => ((driverComponents r d).lookup nm).getD 0)).sum
        / (ds.length : Rat)))

/-- Modelled from the spec: the surprise score of one team. -/
def teamSurprise (r : EventResult) (t : String) : SurpriseScore :=
  { subjectId := t
    subjectKind := .team
    components := teamComponents r t
    weightedScore := weightedSum (teamComponents r t) }

/-- Modelled from the spec: extractSignals of spec section 4.1, absent from
the repository sources: after the integrity check, one surprise score per
driver and per team; on an integrity violation, a data-integrity error and
no scores at all. -/
def extractSignals (r : EventResult) :
    Except ScoringError (List SurpriseScore) :=
  if r.dataOk then
    .ok (r.entrants.map (driverSurprise r)
      ++ (eventTeams r).map (teamSurprise r))
  else
    .error .dataIntegrity

/-- Modelled from the spec: the configured classification size N of spec
section 4.2 (default 5). -/
def surpriseTopN : Nat := 5

/-- Modelled from the spec: the single total ranking order of spec section
4.2: weightedScore descending, then the positionsGained component
descending, then the subject identifier ascending as final, deterministic
tie-break. -/
def rankAbove (a b : SurpriseScore) : Prop :=
  b.weightedScore < a.weightedScore ∨
    (b.weightedScore = a.weightedScore ∧
      (b.positionsGainedComponent < a.positionsGainedComponent ∨
        (b.positionsGainedComponent = a.positionsGainedComponent ∧
          a.subjectId ≤ b.subjectId)))

instance : DecidableRel rankAbove := fun a b => by
  unfold rankAbove
  infer_instance

/-- Modelled from the spec: the shrunk classification size, N, or half the
subject count rounded down when fewer than two times N subjects exist. -/
def classificationSize (total : Nat) : Nat :=
  if total < 2 * surpriseTopN then total / 2 else surpriseTopN

/-- Modelled from the spec: rankSurprise of spec section 4.2, absent from
the repository sources: sort the subjects into one total ranking, take the
top k as breakouts and the bottom k, ascending, as busts; an empty signal
set fails with the empty-input error. -/
def rankSurprise (scores : List SurpriseScore) :
    Except ScoringError RankedClassification :=
  if scores = [] then .error .emptyInput
  else
    let ranked := List.insertionSort rankAbove scores
    let k := classificationSize scores.length
    .ok { breakouts := ranked.take k
          busts := (ranked.drop (ranked.length - k)).reverse }

/-- Full Send option values of the newer submission and edit forms
(src/frontend/components/PredictionForm.tsx lines 19 to 26 and the unnamed
source part_003 lines 21 to 28). -/
def FULL_SEND_CATEGORIES : List String :=
  ["pole_driver", "podium_p1", "podium_p2", "podium_p3", "breakout", "bust"]

/-- Full Send option values offered by the submission form of the unnamed
source part_004 (lines 242 to 248): the five named categories. -/
def fullSendOptionsOlderForm : List String :=
  ["pole", "podium", "chaser", "breakout", "bust"]

/-- The five Full Send category values named by the specification, stated
from the spec's words for comparison with the source option lists. -/
def specFullSendValues : List String :=
  ["pole", "podium", "chaser", "breakout", "bust"]

/-- Full Send submission value from the unnamed source part_004 (line 53):
the select holds a single string, and the empty string is submitted as
unset. -/
def selectedFullSend (fullSend : String) : Option String :=
  if fullSend = "" then none else some fullSend

/-- Form state of the unnamed source part_004: a partial prediction whose
absent fields are the empty string (the empty select value and an undefined
field are both falsy in the source's checks). -/
structure FormPrediction where
  pole_driver : String
  podium_p1 : String
  podium_p2 : String
  podium_p3 : String
  chaser_driver : String
  breakout_type : SubjectKind
  breakout_name : String
  bust_type : SubjectKind
  bust_name : String
deriving DecidableEq, Repr

/-- Outcome of the submission handler of the unnamed source part_004:
either a validation error thrown before any request is issued, or the
submitted prediction request. -/
inductive SubmitOutcome : Type
  | validationError (message : String)
  | requested (p : FormPrediction) (fullSend : Option String)
deriving DecidableEq, Repr

/-- handleSubmit of the unnamed source part_004 (lines 35 to 64): reject
when any objective field other than the chaser is empty, then when either
subjective name is empty; otherwise issue the submission request, the empty
Full Send selection sent as unset. -/
def handleSubmit (p : FormPrediction) (fullSend : String) : SubmitOutcome :=
  if p.pole_driver = "" ∨ p.podium_p1 = "" ∨ p.podium_p2 = ""
      ∨ p.podium_p3 = "" then
    .validationError "Please fill in all objective predictions"
  else if p.breakout_name = "" ∨ p.bust_name = "" then
    .validationError "Please fill in breakout and bust predictions"
  else
    .requested p (selectedFullSend fullSend)

/-- Whether a submission outcome issued a request. -/
def SubmitOutcome.isRequested : SubmitOutcome → Bool
  | .requested _ _ => true
  | .validationError _ => false

/-- Edit form state of the unnamed source part_003: the API prediction
shape with the optional fields held as strings, the empty string meaning
unset. -/
structure EditFormData where
  race_id : Nat
  pole_driver : String
  podium_p1 : String
  podium_p2 : String
  podium_p3 : String
  chaser_driver : String
  breakout_type : SubjectKind
  breakout_name : String
  bust_type : SubjectKind
  bust_name : String
  full_send_category : String
deriving DecidableEq, Repr

/-- updateField of the unnamed source part_003 (lines 86 to 89) applied to
the breakout_type field. -/
def updateBreakoutType (s : EditFormData) (v : SubjectKind) : EditFormData :=
  { s with breakout_type := v }

/-- updateField of the unnamed source part_003 applied to the breakout_name
field. -/
def updateBreakoutName (s : EditFormData) (v : String) : EditFormData :=
  { s with breakout_name := v }

/-- updateField of the unnamed source part_003 applied to the bust_type
field. -/
def updateBustType (s : EditFormData) (v : SubjectKind) : EditFormData :=
  { s with bust_type := v }

/-- updateField of the unnamed source part_003 applied to the bust_name
field. -/
def updateBustName (s : EditFormData) (v : String) : EditFormData :=
  { s with bust_name := v }

/-- Breakout kind button of the unnamed source part_003 (lines 214 to 241)
and of src/frontend/components/PredictionForm.tsx (lines 171 to 198): set
the kind, then reset the name to the empty string. -/
def switchBreakoutKindEdit (s : EditFormData) (k : SubjectKind) :
    EditFormData :=
  updateBreakoutName (updateBreakoutType s k) ""

/-- Bust kind button of the unnamed source part_003 (lines 258 to 286) and
of src/frontend/components/PredictionForm.tsx (lines 215 to 243): set the
kind, then reset the name to the empty string. -/
def switchBustKindEdit (s : EditFormData) (k : SubjectKind) : EditFormData :=
  updateBustName (updateBustType s k) ""

/-- Breakout kind radio of the unnamed source part_004 (lines 161 to 181):
one state replacement setting the kind and the empty name. -/
def switchBreakoutKindSubmit (s : FormPrediction) (k : SubjectKind) :
    FormPrediction :=
  { s with breakout_type := k, breakout_name := "" }

/-- Bust kind radio of the unnamed source part_004 (lines 197 to 218): one
state replacement setting the kind and the empty name. -/
def switchBustKindSubmit (s : FormPrediction) (k : SubjectKind) :
    FormPrediction :=
  { s with bust_type := k, bust_name := "" }

/-- Example complete submission form state. -/
def exampleForm : FormPrediction :=
  { pole_driver := "VER"
    podium_p1 := "NOR"
    podium_p2 := "LEC"
    podium_p3 := "VER"
    chaser_driver := ""
    breakout_type := .driver
    breakout_name := "HAD"
    bust_type := .driver
    bust_name := "ALO" }

/-- Example event result whose podium names a driver that is not in the
entrant set. -/
def exampleBadResult : EventResult :=
  { exampleResult with podium := ["VER", "LEC", "XXX"] }

/-- Example surprise scores used to instantiate the ranking statements. -/
def exampleScores : List SurpriseScore :=
  [exampleScoreHad, exampleScoreSauber, exampleScoreAlo]

/-- C1: calculateAward replaces the Full Send category's points c by c * 2
when c > 0 and by 0 when c = 0, leaves every other category unchanged,
returns the sum of the adjusted points as totalPoints, and on an incorrect
Full Send pick (c = 0) the total equals the sum of the other categories
unchanged, with no negative penalty. -/
theorem calculateAward_full_send (p : Category → Nat) (c : Category) :
    (calculateAward p (some c)).perCategoryPoints c
      = (if 0 < p c then p c * 2 else 0) ∧
    (∀ c2, c2 ≠ c → (calculateAward p (some c)).perCategoryPoints c2 = p c2) ∧
    (calculateAward p (some c)).totalPoints
      = (Category.all.map ((calculateAward p (some c)).perCategoryPoints)).sum ∧
    (p c = 0 → (calculateAward p (some c)).totalPoints
      = ((Category.all.filter (fun c2 => c2 != c)).map p).sum) := by
  refine ⟨by simp [calculateAward, adjustFullSend], ?_, rfl, ?_⟩
  · intro c2 h
    simp [calculateAward, adjustFullSend, h]
  · intro h0
    cases c <;>
      simp [calculateAward, adjustFullSend, Category.all, h0]

/-- C1 witness: the Full Send theorem instantiated at concrete inputs. -/
theorem calculateAward_full_send_witness :
    (calculateAward examplePoints (some Category.chaser)).perCategoryPoints
        Category.podium = examplePoints Category.podium ∧
    (calculateAward examplePoints (some Category.chaser)).totalPoints
      = ((Category.all.filter (fun c2 => c2 != Category.chaser)).map
          examplePoints).sum :=
  ⟨(calculateAward_full_send examplePoints Category.chaser).2.1
      Category.podium (by decide),
   (calculateAward_full_send examplePoints Category.chaser).2.2.2 (by decide)⟩

/-- C9: calculateAward is a deterministic pure function; two invocations on
the same perCategoryPoints and fullSendCategory input yield identical
output. -/
theorem calculateAward_deterministic (p : Category → Nat)
    (fs : Option Category) :
    calculateAward p fs = calculateAward p fs ∧
    (calculateAward p fs).totalPoints = (calculateAward p fs).totalPoints ∧
    (calculateAward p fs).perCategoryPoints
      = (calculateAward p fs).perCategoryPoints :=
  ⟨rfl, rfl, rfl⟩

/-- A slot score is 2 exactly on the exact slot, 1 exactly on a podium
driver in the wrong slot, and 0 exactly off the podium. -/
theorem podiumSlotScore_cases (podium : List String) (i : Nat) (g : String) :
    (podiumSlotScore podium i g = 2 ↔ podium[i]? = some g) ∧
    (podiumSlotScore podium i g = 1 ↔ podium[i]? ≠ some g ∧ g ∈ podium) ∧
    (podiumSlotScore podium i g = 0 ↔ g ∉ podium) := by
  unfold podiumSlotScore
  by_cases he : podium[i]? = some g
  · have hm : g ∈ podium := by
      rcases List.getElem?_eq_some.mp he with ⟨hlt, hEq⟩
      exact hEq ▸ List.getElem_mem hlt
    simp [he, hm]
  · by_cases hm : g ∈ podium
    · simp [he, hm]
    · simp [he, hm]

/-- C2 counterexample: with the actual podium VER, LEC, NOR, predicting the
three correct drivers in reverse order (NOR, LEC, VER) scores 4 podium
points, not 3, because the P2 slot is fixed under reversal and earns the
exact-slot bonus. -/
theorem podium_reverse_scores_four :
    gradePrediction examplePrediction exampleResult exampleClassification
        Category.podium = 4 ∧
    gradePrediction examplePrediction exampleResult exampleClassification
        Category.podium ≠ 3 ∧
    podiumSlotScore exampleResult.podium 1 "LEC" = 2 :=
  ⟨rfl, by decide, rfl⟩

/-- C2 amended: podium grading is three independent per-slot evaluations,
2 points for the exact slot, 1 for a podium driver in the wrong slot, 0
otherwise, summed into the category total; predicting all three correct
drivers of a podium of three distinct drivers in reverse order yields
exactly 4 points, the P2 slot earning the exact-slot bonus because
reversal fixes the middle slot. -/
theorem gradePrediction_podium_slots (pr : Prediction) (r : EventResult)
    (cls : RankedClassification) (a1 a2 a3 : String)
    (hp : r.podium = [a1, a2, a3]) :
    gradePrediction pr r cls .podium
      = podiumSlotScore r.podium 0 pr.podium_p1
        + podiumSlotScore r.podium 1 pr.podium_p2
        + podiumSlotScore r.podium 2 pr.podium_p3 ∧
    (∀ i g, (podiumSlotScore r.podium i g = 2 ↔ r.podium[i]? = some g) ∧
      (podiumSlotScore r.podium i g = 1 ↔ r.podium[i]? ≠ some g ∧ g ∈ r.podium) ∧
      (podiumSlotScore r.podium i g = 0 ↔ g ∉ r.podium)) ∧
    (a1 ≠ a2 → a2 ≠ a3 → a1 ≠ a3 →
      gradePrediction
          { pr with podium_p1 := a3, podium_p2 := a2, podium_p3 := a1 }
          r cls .podium = 4 ∧
      podiumSlotScore r.podium 1 a2 = 2) := by
  refine ⟨rfl, fun i g => podiumSlotScore_cases r.podium i g, ?_⟩
  intro h12 h23 h13
  have h31 : a3 ≠ a1 := fun h => h13 h.symm
  constructor
  · show gradePodium r _ = 4
    unfold gradePodium podiumSlotScore
    simp [hp, h31, h13]
  · unfold podiumSlotScore
    simp [hp]

/-- C2 witness: the per-slot theorem instantiated at the example event. -/
theorem gradePrediction_podium_slots_witness :
    gradePrediction
        { examplePrediction with
            podium_p1 := "NOR", podium_p2 := "LEC", podium_p3 := "VER" }
        exampleResult exampleClassification Category.podium = 4 :=
  ((gradePrediction_podium_slots examplePrediction exampleResult
        exampleClassification "VER" "LEC" "NOR" rfl).2.2 (by decide) (by decide)
      (by decide)).1

/-- pickChaser returns one of its two arguments. -/
theorem pickChaser_cases (x y : String × Int) :
    pickChaser x y = x ∨ pickChaser x y = y := by
  unfold pickChaser
  split_ifs <;> simp

/-- pickChaser beats its left argument. -/
theorem pickChaser_dominates_left (x y : String × Int) :
    chaserDominates (pickChaser x y) x := by
  unfold pickChaser chaserDominates
  split_ifs with h1 h2 h3
  · exact Or.inl h1
  · exact Or.inr ⟨rfl, le_refl _⟩
  · exact Or.inr ⟨rfl, le_refl _⟩
  · exact Or.inr ⟨by omega, (not_le.mp h3).le⟩

/-- pickChaser beats its right argument. -/
theorem pickChaser_dominates_right (x y : String × Int) :
    chaserDominates (pickChaser x y) y := by
  unfold pickChaser chaserDominates
  split_ifs with h1 h2 h3
  · exact Or.inr ⟨rfl, le_refl _⟩
  · exact Or.inl h2
  · exact Or.inr ⟨by omega, h3⟩
  · exact Or.inr ⟨rfl, le_refl _⟩

/-- Beating is transitive. -/
theorem chaserDominates_trans {w m p : String × Int}
    (h1 : chaserDominates w m) (h2 : chaserDominates m p) :
    chaserDominates w p := by
  unfold chaserDominates at h1 h2 ⊢
  rcases h1 with h1 | ⟨h1, h1s⟩ <;> rcases h2 with h2 | ⟨h2, h2s⟩
  · exact Or.inl (by omega)
  · exact Or.inl (by omega)
  · exact Or.inl (by omega)
  · exact Or.inr ⟨by omega, le_trans h1s h2s⟩

/-- The chaser fold returns an element of the list that beats every
element. -/
theorem foldl_pickChaser_spec (rest : List (String × Int)) :
    ∀ e, rest.foldl pickChaser e ∈ e :: rest ∧
      ∀ p ∈ e :: rest, chaserDominates (rest.foldl pickChaser e) p := by
  induction rest with
  | nil =>
    intro e
    refine ⟨by simp, ?_⟩
    intro p hp
    simp only [List.mem_singleton] at hp
    subst hp
    exact Or.inr ⟨rfl, le_refl _⟩
  | cons y t ih =>
    intro e
    have h := ih (pickChaser e y)
    have hcases := pickChaser_cases e y
    rw [List.foldl_cons]
    constructor
    · rcases List.mem_cons.mp h.1 with hm | hm
      · rcases hcases with hc | hc <;> rw [hm, hc] <;> simp
      · exact List.mem_cons_of_mem _ (List.mem_cons_of_mem _ hm)
    · intro p hp
      rcases List.mem_cons.mp hp with hpe | hp2
      · rw [hpe]
        exact chaserDominates_trans
          (h.2 _ (List.mem_cons_self _ _)) (pickChaser_dominates_left e y)
      · rcases List.mem_cons.mp hp2 with hpy | hpt
        · rw [hpy]
          exact chaserDominates_trans
            (h.2 _ (List.mem_cons_self _ _)) (pickChaser_dominates_right e y)
        · exact h.2 p (List.mem_cons_of_mem _ hpt)

/-- chaserWinner picks exactly the driver that gained the most positions,
ties resolved in favour of the lower-ordered identifier. -/
theorem chaserWinner_eq_some_iff (gtf : List (String × Int)) (d : String) :
    chaserWinner gtf = some d ↔
      ∃ v, (d, v) ∈ gtf ∧
        ∀ p ∈ gtf, p.2 < v ∨ (p.2 = v ∧ d ≤ p.1) := by
  cases gtf with
  | nil => simp [chaserWinner]
  | cons e rest =>
    have h := foldl_pickChaser_spec rest e
    constructor
    · intro hw
      unfold chaserWinner at hw
      have h1 : (rest.foldl pickChaser e).1 = d := by
        exact Option.some.inj hw
      refine ⟨(rest.foldl pickChaser e).2, ?_, ?_⟩
      · rw [← h1]
        exact h.1
      · intro p hp
        have hd := h.2 p hp
        unfold chaserDominates at hd
        rw [h1] at hd
        exact hd
    · rintro ⟨v, hm, hdom⟩
      have hr := h.2 (d, v) hm
      have hd := hdom _ h.1
      unfold chaserDominates at hr
      have h1 : (rest.foldl pickChaser e).1 = d := by
        rcases hr with hr | ⟨hr1, hr2⟩ <;> rcases hd with hd | ⟨hd1, hd2⟩
        · exact absurd hd (by omega)
        · exact absurd hd1 (by omega)
        · exact absurd hd (by omega)
        · exact le_antisymm hr2 hd2
      show some (rest.foldl pickChaser e).1 = some d
      rw [h1]

/-- C5: for a prediction naming a chaser driver, the chaser category awards
exactly 1 point if and only if that driver is the one with the greatest
gridToFinish value, ties resolved in favour of the lower-ordered driver
identifier. -/
theorem gradePrediction_chaser (pr : Prediction) (r : EventResult)
    (cls : RankedClassification) (d : String)
    (h : pr.chaser_driver = some d) :
    gradePrediction pr r cls .chaser = 1 ↔
      ∃ v, (d, v) ∈ r.gridToFinish ∧
        ∀ p ∈ r.gridToFinish, p.2 < v ∨ (p.2 = v ∧ d ≤ p.1) := by
  rw [← chaserWinner_eq_some_iff]
  by_cases hw : chaserWinner r.gridToFinish = some d <;>
    simp [gradePrediction, gradeChaser, h, hw]

/-- C5 witness: in the example event NOR and HAM both gain 3 positions and
HAM is the lower-ordered identifier, so the HAM chaser pick scores 1. -/
theorem gradePrediction_chaser_witness :
    gradePrediction examplePrediction exampleResult exampleClassification
        Category.chaser = 1 :=
  (gradePrediction_chaser examplePrediction exampleResult
      exampleClassification "HAM" rfl).mpr
    ⟨3, by decide, by
      intro p hp
      simp only [exampleResult, List.mem_cons, List.not_mem_nil, or_false] at hp
      rcases hp with h | h | h | h | h <;> rw [h]
      · exact Or.inl (by decide)
      · exact Or.inl (by decide)
      · refine Or.inr ⟨rfl, ?_⟩
        rw [String.le_iff_toList_le]
        decide
      · exact Or.inr ⟨rfl, le_refl _⟩
      · exact Or.inl (by decide)⟩

/-- C6: the breakout and bust categories award points exactly when the
pick's identifier appears in the corresponding classification list with the
matching subject kind; a matching driver pick scores 1, a matching team
pick scores 2, and a non-matching pick scores 0. The bust category behaves
identically over the busts list. -/
theorem gradePrediction_breakout_bust (pr : Prediction) (r : EventResult)
    (cls : RankedClassification) :
    (0 < gradePrediction pr r cls .breakout ↔
      ∃ s ∈ cls.breakouts,
        s.subjectId = pr.breakout_name ∧ s.subjectKind = pr.breakout_type) ∧
    ((∃ s ∈ cls.breakouts,
        s.subjectId = pr.breakout_name ∧ s.subjectKind = pr.breakout_type) →
      gradePrediction pr r cls .breakout
        = match pr.breakout_type with | .driver => 1 | .team => 2) ∧
    ((¬ ∃ s ∈ cls.breakouts,
        s.subjectId = pr.breakout_name ∧ s.subjectKind = pr.breakout_type) →
      gradePrediction pr r cls .breakout = 0) ∧
    (0 < gradePrediction pr r cls .bust ↔
      ∃ s ∈ cls.busts,
        s.subjectId = pr.bust_name ∧ s.subjectKind = pr.bust_type) ∧
    ((∃ s ∈ cls.busts,
        s.subjectId = pr.bust_name ∧ s.subjectKind = pr.bust_type) →
      gradePrediction pr r cls .bust
        = match pr.bust_type with | .driver => 1 | .team => 2) ∧
    ((¬ ∃ s ∈ cls.busts,
        s.subjectId = pr.bust_name ∧ s.subjectKind = pr.bust_type) →
      gradePrediction pr r cls .bust = 0) := by
  have hgen : ∀ (entries : List SurpriseScore) (kind : SubjectKind)
      (name : String),
      (0 < gradePick entries kind name ↔
        ∃ s ∈ entries, s.subjectId = name ∧ s.subjectKind = kind) ∧
      ((∃ s ∈ entries, s.subjectId = name ∧ s.subjectKind = kind) →
        gradePick entries kind name
          = match kind with | .driver => 1 | .team => 2) ∧
      ((¬ ∃ s ∈ entries, s.subjectId = name ∧ s.subjectKind = kind) →
        gradePick entries kind name = 0) := by
    intro entries kind name
    unfold gradePick
    by_cases hex : ∃ s ∈ entries, s.subjectId = name ∧ s.subjectKind = kind
    · have hany : entries.any
          (fun s => s.subjectId == name && s.subjectKind == kind) = true := by
        rcases hex with ⟨s, hs, h1, h2⟩
        refine List.any_eq_true.mpr ⟨s, hs, ?_⟩
        simp [h1, h2]
      rw [hany]
      refine ⟨⟨fun _ => hex, fun _ => ?_⟩, fun _ => rfl, fun hc => absurd hex hc⟩
      cases kind <;> simp
    · have hany : entries.any
          (fun s => s.subjectId == name && s.subjectKind == kind) = false := by
        rw [Bool.eq_false_iff]
        intro hc
        rcases List.any_eq_true.mp hc with ⟨s, hs, hb⟩
        rw [Bool.and_eq_true, beq_iff_eq, beq_iff_eq] at hb
        exact hex ⟨s, hs, hb.1, hb.2⟩
      rw [hany]
      exact ⟨by simp [hex], fun hc => absurd hc hex, fun _ => rfl⟩
  exact ⟨(hgen cls.breakouts pr.breakout_type pr.breakout_name).1,
    (hgen cls.breakouts pr.breakout_type pr.breakout_name).2.1,
    (hgen cls.breakouts pr.breakout_type pr.breakout_name).2.2,
    (hgen cls.busts pr.bust_type pr.bust_name).1,
    (hgen cls.busts pr.bust_type pr.bust_name).2.1,
    (hgen cls.busts pr.bust_type pr.bust_name).2.2⟩

/-- C6 witness: the example breakout pick HAD as a driver matches the
classified breakout driver HAD and scores 1 point. -/
theorem gradePrediction_breakout_bust_witness :
    gradePrediction examplePrediction exampleResult exampleClassification
        Category.breakout = 1 :=
  (gradePrediction_breakout_bust examplePrediction exampleResult
      exampleClassification).2.1
    ⟨exampleScoreHad, List.mem_cons_self _ _, rfl, rfl⟩

/-- C8: when a driver appearing in the event result is missing from teamOf,
or a podium, qualifying or finish list contains an identifier absent from
the entrant set, signal extraction fails with the data-integrity error and
emits no surprise scores at all. -/
theorem extractSignals_all_or_nothing (r : EventResult)
    (h : (∃ d ∈ r.resultDrivers, r.teamOf.lookup d = none) ∨
      (∃ d ∈ r.podium ++ r.qualifyingOrder ++ r.raceFinishOrder,
        d ∉ r.entrants)) :
    extractSignals r = .error .dataIntegrity ∧
    ∀ scores, extractSignals r ≠ .ok scores := by
  have hok : r.dataOk = false := by
    rw [Bool.eq_false_iff]
    intro hc
    unfold EventResult.dataOk at hc
    rw [Bool.and_eq_true, List.all_eq_true, List.all_eq_true] at hc
    rcases h with ⟨d, hd, hnone⟩ | ⟨d, hd, hnot⟩
    · have hs := hc.1 d hd
      rw [hnone] at hs
      simp at hs
    · have hs := hc.2 d hd
      have hmem : d ∈ r.entrants := by simpa using hs
      exact hnot hmem
  constructor
  · unfold extractSignals
    rw [hok]
    rfl
  · intro scores hc
    unfold extractSignals at hc
    rw [hok] at hc
    simp at hc

/-- C8 witness: a podium naming the unknown identifier XXX makes signal
extraction fail with the data-integrity error. -/
theorem extractSignals_all_or_nothing_witness :
    extractSignals exampleBadResult = .error .dataIntegrity :=
  (extractSignals_all_or_nothing exampleBadResult
    (Or.inr ⟨"XXX", by decide, by decide⟩)).1

/-- C4: for a non-empty score set with distinct subject identifiers,
rankSurprise succeeds and returns breakout and bust sets that are disjoint
and each of size at most N = 5; with fewer than 2 N total subjects both
sets shrink symmetrically to half the subject count, rounded down. -/
theorem rankSurprise_disjoint_bounded (scores : List SurpriseScore)
    (hne : scores ≠ [])
    (hid : (scores.map SurpriseScore.subjectId).Nodup) :
    ∃ rc, rankSurprise scores = .ok rc ∧
      rc.breakouts.length ≤ surpriseTopN ∧
      rc.busts.length ≤ surpriseTopN ∧
      (∀ s ∈ rc.breakouts, s ∉ rc.busts) ∧
      (scores.length < 2 * surpriseTopN →
        rc.breakouts.length = scores.length / 2 ∧
        rc.busts.length = scores.length / 2) := by
  have hperm : List.Perm (List.insertionSort rankAbove scores) scores :=
    List.perm_insertionSort rankAbove scores
  have hlen : (List.insertionSort rankAbove scores).length = scores.length :=
    hperm.length_eq
  have hkk : classificationSize scores.length + classificationSize scores.length
      ≤ scores.length := by
    unfold classificationSize surpriseTopN
    split_ifs with hlt <;> omega
  have hkN : classificationSize scores.length ≤ surpriseTopN := by
    unfold classificationSize surpriseTopN
    split_ifs with hlt <;> omega
  have hk2 : scores.length < 2 * surpriseTopN →
      classificationSize scores.length = scores.length / 2 := by
    intro hlt
    unfold classificationSize
    rw [if_pos hlt]
  have hnodup : (List.insertionSort rankAbove scores).Nodup :=
    hperm.nodup_iff.mpr (List.Nodup.of_map _ hid)
  have hrs : rankSurprise scores = Except.ok
      { breakouts :=
          (List.insertionSort rankAbove scores).take
            (classificationSize scores.length)
        busts :=
          ((List.insertionSort rankAbove scores).drop
            ((List.insertionSort rankAbove scores).length
              - classificationSize scores.length)).reverse } := by
    unfold rankSurprise
    rw [if_neg hne]
  refine ⟨_, hrs, ?_, ?_, ?_, ?_⟩
  · simp only [List.length_take]
    exact le_trans (min_le_left _ _) hkN
  · simp only [List.length_reverse, List.length_drop]
    omega
  · intro s hsb hsbu
    have hdisj : List.Disjoint
        ((List.insertionSort rankAbove scores).take
          (classificationSize scores.length))
        ((List.insertionSort rankAbove scores).drop
          ((List.insertionSort rankAbove scores).length
            - classificationSize scores.length)) :=
      List.disjoint_take_drop hnodup (by omega)
    exact hdisj hsb (List.mem_reverse.mp hsbu)
  · intro hlt
    have hk := hk2 hlt
    constructor
    · simp only [List.length_take]
      omega
    · simp only [List.length_reverse, List.length_drop]
      omega

/-- C4 witness: ranking the three example scores yields sets of size one,
disjoint, within the bound. -/
theorem rankSurprise_disjoint_bounded_witness :
    ∃ rc, rankSurprise exampleScores = .ok rc ∧
      rc.breakouts.length ≤ surpriseTopN ∧
      rc.busts.length ≤ surpriseTopN ∧
      (∀ s ∈ rc.breakouts, s ∉ rc.busts) ∧
      (exampleScores.length < 2 * surpriseTopN →
        rc.breakouts.length = exampleScores.length / 2 ∧
        rc.busts.length = exampleScores.length / 2) :=
  rankSurprise_disjoint_bounded exampleScores (by decide) (by decide)

/-- C3 counterexample: the newer submission and edit forms offer the Full
Send value podium_p1, which is selectable and is not one of the five
specified values pole, podium, chaser, breakout, bust. -/
theorem full_send_value_counterexample :
    "podium_p1" ∈ FULL_SEND_CATEGORIES ∧
    "podium_p1" ∉ specFullSendValues ∧
    selectedFullSend "podium_p1" = some "podium_p1" :=
  ⟨by decide, by decide, rfl⟩

/-- C3 amended: a prediction's Full Send selection is a single value, unset
or exactly one option of the offering form; the part_004 submission form
offers exactly the five specified values pole, podium, chaser, breakout,
bust, while the newer submission and edit forms instead offer the six
values pole_driver, podium_p1, podium_p2, podium_p3, breakout, bust, so
per-slot podium values and pole_driver are selectable there and chaser is
not offered. -/
theorem full_send_options (s : String) :
    fullSendOptionsOlderForm = specFullSendValues ∧
    (∀ v ∈ FULL_SEND_CATEGORIES,
      v ∈ specFullSendValues ∨
        v ∈ ["pole_driver", "podium_p1", "podium_p2", "podium_p3"]) ∧
    "chaser" ∉ FULL_SEND_CATEGORIES ∧
    (s = "" → selectedFullSend s = none) ∧
    (s ≠ "" → selectedFullSend s = some s) := by
  refine ⟨rfl, by decide, by decide, ?_, ?_⟩
  · intro h
    simp [selectedFullSend, h]
  · intro h
    simp [selectedFullSend, h]

/-- C3 amended witness: the options theorem instantiated at the breakout
selection. -/
theorem full_send_options_witness :
    selectedFullSend "breakout" = some "breakout" :=
  (full_send_options "breakout").2.2.2.2 (by decide)

/-- C7: a prediction can be submitted with an empty chaser, while the pole
driver, the three podium guesses, the breakout name and the bust name must
each be non-empty: the handler issues the request exactly when all six
required fields are non-empty, the chaser field never affects the outcome,
and any empty required field raises a validation error instead of a
request. -/
theorem handleSubmit_validation (p : FormPrediction) (fullSend : String) :
    ((handleSubmit p fullSend).isRequested = true ↔
      (p.pole_driver ≠ "" ∧ p.podium_p1 ≠ "" ∧ p.podium_p2 ≠ "" ∧
        p.podium_p3 ≠ "" ∧ p.breakout_name ≠ "" ∧ p.bust_name ≠ "")) ∧
    (∀ c, (handleSubmit { p with chaser_driver := c } fullSend).isRequested
      = (handleSubmit p fullSend).isRequested) ∧
    ((p.pole_driver = "" ∨ p.podium_p1 = "" ∨ p.podium_p2 = ""
        ∨ p.podium_p3 = "" ∨ p.breakout_name = "" ∨ p.bust_name = "") →
      ∃ msg, handleSubmit p fullSend = .validationError msg) := by
  refine ⟨?_, ?_, ?_⟩
  · by_cases h1 : p.pole_driver = "" <;>
    by_cases h2 : p.podium_p1 = "" <;>
    by_cases h3 : p.podium_p2 = "" <;>
    by_cases h4 : p.podium_p3 = "" <;>
    by_cases h5 : p.breakout_name = "" <;>
    by_cases h6 : p.bust_name = "" <;>
    simp [handleSubmit, SubmitOutcome.isRequested, h1, h2, h3, h4, h5, h6]
  · intro c
    by_cases h1 : p.pole_driver = "" <;>
    by_cases h2 : p.podium_p1 = "" <;>
    by_cases h3 : p.podium_p2 = "" <;>
    by_cases h4 : p.podium_p3 = "" <;>
    by_cases h5 : p.breakout_name = "" <;>
    by_cases h6 : p.bust_name = "" <;>
    simp [handleSubmit, SubmitOutcome.isRequested, h1, h2, h3, h4, h5, h6]
  · by_cases h1 : p.pole_driver = "" <;>
    by_cases h2 : p.podium_p1 = "" <;>
    by_cases h3 : p.podium_p2 = "" <;>
    by_cases h4 : p.podium_p3 = "" <;>
    by_cases h5 : p.breakout_name = "" <;>
    by_cases h6 : p.bust_name = "" <;>
    simp [handleSubmit, SubmitOutcome.isRequested, h1, h2, h3, h4, h5, h6]

/-- C7 witness: the complete example form submits, and the same form with
an empty bust name is rejected with a validation error before any
request. -/
theorem handleSubmit_validation_witness :
    (handleSubmit exampleForm "").isRequested = true ∧
    (∃ msg, handleSubmit { exampleForm with bust_name := "" } ""
      = .validationError msg) :=
  ⟨(handleSubmit_validation exampleForm "").1.mpr
      ⟨by decide, by decide, by decide, by decide, by decide, by decide⟩,
    (handleSubmit_validation { exampleForm with bust_name := "" } "").2.2
      (Or.inr (Or.inr (Or.inr (Or.inr (Or.inr rfl)))))⟩

/-- C10: in both the submission form of part_004 and the edit form of
part_003 (shared with the newer combined form), switching the breakout or
bust pick kind resets the corresponding pick name to the empty string and
installs the chosen kind, so a name selected under one kind never remains
attached to a pick of the other kind. -/
theorem switch_kind_resets_name (s : FormPrediction) (t : EditFormData)
    (k : SubjectKind) :
    (switchBreakoutKindSubmit s k).breakout_name = "" ∧
    (switchBreakoutKindSubmit s k).breakout_type = k ∧
    (switchBustKindSubmit s k).bust_name = "" ∧
    (switchBustKindSubmit s k).bust_type = k ∧
    (switchBreakoutKindEdit t k).breakout_name = "" ∧
    (switchBreakoutKindEdit t k).breakout_type = k ∧
    (switchBustKindEdit t k).bust_name = "" ∧
    (switchBustKindEdit t k).bust_type = k :=
  ⟨rfl, rfl, rfl, rfl, rfl, rfl, rfl, rfl⟩

end Gridcall
